import Mathlib

/-!
Shallow embedding of `asio/include/asio/impl/await.hpp`: the coroutine-based
await support layer of asio.  The embedded entities are

* `Awaiter` — the promise object of the top-level spawned coroutine
  (the spec's TaskUnit): reference count plus a pending-exception slot;
* `Awaitee` — the promise object of one suspendable-function invocation
  (the spec's SuspendableComputation): caller link, pending-exception slot,
  readiness flag, and the value buffer `buf_`/`initialised_` (modelled as a
  single `Option`);
* the `await_handler` completion-adapter invocations, the `awaiter_task`
  reference lifecycle, and `spawn_entry_point`.

Exceptions (`std::exception_ptr` contents) are modelled by the inductive
`Exc`; `error_code` is a `Nat` whose boolean test `ec != 0` mirrors
`if (ec)`.  Executors and coroutine handles are identified by `Nat` tags.
-/

namespace AsioAwait

/-- Contents of a non-null `std::exception_ptr`: either a `system_error`
built from an `error_code` (as `await_handler` does on a failed callback) or
some other exception identified by a tag. -/
inductive Exc
  | system_error (ec : Nat)
  | user (n : Nat)
deriving DecidableEq, Repr

/-- State of the `awaiter` promise object (the top-level task):
`ref_count_` and `pending_exception_` (lines 89-91 of impl/await.hpp). -/
structure Awaiter where
  refCount : Nat
  pendingException : Option Exc
deriving DecidableEq, Repr

/-- Embeds `awaiter::add_ref` (lines 68-72): `++ref_count_`.  The count is a
`std::size_t`; its overflow wrap is unreachable (it would need `2^64` live
references), so the model uses plain `Nat` addition. -/
def Awaiter.add_ref (a : Awaiter) : Awaiter :=
  { a with refCount := a.refCount + 1 }

/-- Embeds `awaiter::unhandled_exception` / `set_exception` (lines 54-62):
stores the current exception in `pending_exception_`. -/
def Awaiter.unhandled_exception (a : Awaiter) (e : Exc) : Awaiter :=
  { a with pendingException := some e }

/-- Embeds `awaiter::release` (lines 74-78): `--ref_count_` and, if the new
count is zero, `coroutine_handle<awaiter>::from_promise(*this).destroy()` —
executed inline by `release` itself.  The returned `Bool` records whether
that inline `destroy()` call happened.  The decrement is truncated `Nat`
subtraction; it differs from the `std::size_t` wrap only at a count of 0,
which is a release without a matching `add_ref` (a double release, already
undefined behaviour in the C++), and the theorems below assume a positive
count wherever the distinction could matter. -/
def Awaiter.release (a : Awaiter) : Awaiter × Bool :=
  let rc := a.refCount - 1
  ({ a with refCount := rc }, rc == 0)

/-- Embeds `awaiter::rethrow_exception` (lines 80-87): if a pending exception
is present it is exchanged with null and rethrown.  The second component is
the exception thrown out of the call, if any. -/
def Awaiter.rethrow_exception (a : Awaiter) : Awaiter × Option Exc :=
  match a.pendingException with
  | some e => ({ a with pendingException := none }, some e)
  | none => (a, none)

/-- State of an `awaitee<T>` promise object together with its
`awaitee_base` part (lines 106-220): the caller link `caller_` (a
`coroutine_handle<void>`, identified here by a `Nat` tag), the
`pending_exception_` slot, the `ready_` flag, and the value buffer.
`stored` is `some t` exactly when `initialised_` is true and `buf_`
holds `t`; a default-constructed awaitee has every field empty/false. -/
structure Awaitee (T : Type) where
  caller : Option Nat := none
  pendingException : Option Exc := none
  ready : Bool := false
  stored : Option T := none

/-- Embeds `awaitee_base::unhandled_exception` (lines 138-142): records the
exception and sets `ready_`. -/
def Awaitee.unhandled_exception {T : Type} (s : Awaitee T) (e : Exc) : Awaitee T :=
  { s with pendingException := some e, ready := true }

/-- Embeds `awaitee_base::set_exception` (lines 144-148): records the
exception and sets `ready_`. -/
def Awaitee.set_exception {T : Type} (s : Awaitee T) (e : Exc) : Awaitee T :=
  { s with pendingException := some e, ready := true }

/-- Embeds `awaitee_base::wake_caller` (lines 150-154): resumes `caller_` if
it is non-null.  The result is the handle that gets resumed, if any; the
awaitee state itself is unchanged. -/
def Awaitee.wake_caller {T : Type} (s : Awaitee T) : Option Nat :=
  s.caller

/-- Embeds `awaitee_base::ready` (lines 156-159): returns the `ready_` flag. -/
def Awaitee.isReady {T : Type} (s : Awaitee T) : Bool :=
  s.ready

/-- Embeds `awaitee_base::set_caller` (lines 161-164). -/
def Awaitee.set_caller {T : Type} (s : Awaitee T) (h : Option Nat) : Awaitee T :=
  { s with caller := h }

/-- Embeds `awaitee_base::rethrow_exception` (lines 167-174): if a pending
exception is present it is exchanged with null and rethrown. -/
def Awaitee.rethrow_exception {T : Type} (s : Awaitee T) : Awaitee T × Option Exc :=
  match s.pendingException with
  | some e => ({ s with pendingException := none }, some e)
  | none => (s, none)

/-- Embeds `awaitee<T>::return_value` (lines 202-208): placement-constructs
the value in `buf_` and sets `initialised_`.  Note that, as in the source,
this does not touch `ready_`. -/
def Awaitee.return_value {T : Type} (s : Awaitee T) (u : T) : Awaitee T :=
  { s with stored := some u }

/-- Embeds `awaitee<void>::return_void` (lines 232-234): a no-op. -/
def Awaitee.return_void (s : Awaitee Unit) : Awaitee Unit :=
  s

/-- Outcome of `awaitee<T>::value()`: the recorded exception was rethrown,
the stored value was moved out, or the buffer was read uninitialised
(undefined behaviour in the C++). -/
inductive ValueResult (T : Type)
  | thrown (e : Exc)
  | moved (t : T)
  | invalidRead
deriving DecidableEq, Repr

/-- Embeds `awaitee<T>::value` (lines 210-214): `rethrow_exception()`, then
`std::move` the buffer contents out.  Moving from the buffer leaves
`initialised_` set, which the model keeps as an unchanged `stored`. -/
def Awaitee.value {T : Type} (s : Awaitee T) : Awaitee T × ValueResult T :=
  match s.rethrow_exception with
  | (s1, some e) => (s1, ValueResult.thrown e)
  | (s1, none) =>
    match s1.stored with
    | some t => (s1, ValueResult.moved t)
    | none => (s1, ValueResult.invalidRead)

/-- Embeds `awaitable<T>::await_ready` (lines 640-644): `awaitee_->ready()`. -/
def awaitable_await_ready {T : Type} (s : Awaitee T) : Bool :=
  s.isReady

/-- Embeds `awaitable<T>::await_suspend` (lines 646-658):
`awaitee_->set_caller(h)`. -/
def awaitable_await_suspend {T : Type} (s : Awaitee T) (h : Nat) : Awaitee T :=
  s.set_caller (some h)

/-- Embeds `awaitable<T>::await_resume` (lines 660-665):
`awaitee_->set_caller(nullptr); return awaitee_->value();`. -/
def awaitable_await_resume {T : Type} (s : Awaitee T) : Awaitee T × ValueResult T :=
  (s.set_caller none).value

/-!
Completion-adapter invocations.  Every `await_handler<...>::operator()`
(lines 380-481) follows the same shape:

    awaiter_ptr ptr(std::move(this->awaiter_));
    <write the outcome into *awaitee_>
    this->awaitee_->wake_caller();
    ptr->rethrow_exception();
    // ptr destructs here (also during unwinding): awaiter_->release()

If `wake_caller` resumes a registered caller, the resumed coroutine chain may
itself end in an uncaught exception; that exception lands in the top-level
`awaiter` via `awaiter::unhandled_exception` before control returns to the
handler.  The parameter `resumeRaises` models the exception, if any, that the
resumed chain leaves there; it is consulted only when a caller was actually
resumed.
-/

/-- Result of one completion-adapter invocation: the updated awaitee and
awaiter states, the caller handle that `wake_caller` resumed (if any), the
exception thrown out of the handler by `ptr->rethrow_exception()` (if any),
and whether the trailing `release()` destroyed the awaiter inline. -/
structure HandlerStep (T : Type) where
  awaitee : Awaitee T
  task : Awaiter
  resumed : Option Nat
  rethrown : Option Exc
  destroyedInline : Bool

/-- Effect of the `wake_caller` resumption on the top-level awaiter: when a
caller was resumed and the resumed chain ends in an uncaught exception, that
exception is recorded via `awaiter::unhandled_exception`; otherwise the
awaiter is untouched. -/
def resume_effect (resumed : Option Nat) (resumeRaises : Option Exc)
    (aw : Awaiter) : Awaiter :=
  match resumed, resumeRaises with
  | some _, some e => aw.unhandled_exception e
  | _, _ => aw

/-- Common tail of every `await_handler` invocation after the outcome has
been written into the awaitee: `wake_caller`, `ptr->rethrow_exception()`,
then the moved-out `awaiter_ptr` destructs, releasing the reference (also
on the unwinding path when the rethrow throws). -/
def finish_invoke {T : Type} (ae : Awaitee T) (aw : Awaiter)
    (resumeRaises : Option Exc) : HandlerStep T :=
  let resumed := ae.wake_caller
  let aw1 := resume_effect resumed resumeRaises aw
  let rt := aw1.rethrow_exception
  let rel := rt.1.release
  { awaitee := ae, task := rel.1, resumed := resumed,
    rethrown := rt.2, destroyedInline := rel.2 }

/-- Embeds `await_handler<Executor>::operator()` (lines 380-387): the
no-argument adapter calls `return_void`, wakes the caller, and rethrows any
pending awaiter exception. -/
def await_handler_void_invoke (ae : Awaitee Unit) (aw : Awaiter)
    (resumeRaises : Option Exc) : HandlerStep Unit :=
  finish_invoke ae.return_void aw resumeRaises

/-- Embeds `await_handler<Executor, error_code, T>::operator()`
(lines 445-462): on a truthy `error_code` it records
`system_error(ec)` via `set_exception` and never touches the value buffer;
otherwise it calls `return_value(t)`; then wakes the caller and rethrows any
pending awaiter exception. -/
def await_handler_ec_t_invoke {T : Type} (ec : Nat) (t : T)
    (ae : Awaitee T) (aw : Awaiter) (resumeRaises : Option Exc) : HandlerStep T :=
  let ae1 := if ec ≠ 0 then ae.set_exception (Exc.system_error ec) else ae.return_value t
  finish_invoke ae1 aw resumeRaises

/-!
Reference lifecycle of one `awaiter_task` (the base of every adapter and of
`spawn_handler`, lines 300-345), recorded as the sequence of operations
performed on the underlying `awaiter` reference:

* the constructor (lines 306-310) does `a->add_ref()`;
* an invocation moves the `awaiter_ptr` out, so the reference is released
  inline on the invoking worker when the moved-to `ptr` destructs at the
  end of `operator()`;
* the destructor (lines 318-322) checks `awaiter_`: if the task still holds
  the reference (it was never invoked), it posts a
  `destroy_awaiter` action onto the executor, moving the pointer into it;
* `destroy_awaiter::operator()` (lines 290-293), run later by the execution
  context, destroys the `awaiter_ptr`, releasing the reference there.
-/

/-- One event in the life of the awaiter reference held by an
`awaiter_task`. -/
inductive RefEvent
  | acquire
  | releaseInline
  | enqueueCleanup
  | releaseOnContext
deriving DecidableEq, Repr

/-- Events of the `awaiter_task` constructor (lines 306-310). -/
def awaiter_task_ctor : List RefEvent :=
  [RefEvent.acquire]

/-- Events of a handler invocation with respect to the held reference
(see e.g. lines 380-387): the moved-out `awaiter_ptr` releases on the
invoking worker. -/
def handler_invocation : List RefEvent :=
  [RefEvent.releaseInline]

/-- Events of the `awaiter_task` destructor (lines 318-322), given whether
the task still holds its reference when destroyed. -/
def awaiter_task_dtor (holdsRef : Bool) : List RefEvent :=
  if holdsRef then [RefEvent.enqueueCleanup] else []

/-- Events of `destroy_awaiter::operator()` (lines 290-293) when the
execution context runs the posted cleanup action. -/
def destroy_awaiter_run : List RefEvent :=
  [RefEvent.releaseOnContext]

/-- Full reference lifecycle of one adapter instance: construction, then
either its single invocation (after which the destructor finds `awaiter_`
null) or destruction without invocation followed by the context running the
posted cleanup. -/
def adapter_lifecycle (invoked : Bool) : List RefEvent :=
  awaiter_task_ctor
    ++ (if invoked then handler_invocation else [])
    ++ awaiter_task_dtor (!invoked)
    ++ (if invoked then [] else destroy_awaiter_run)

/-- Whether a `RefEvent` performs a `release()` of the held reference. -/
def RefEvent.isRelease : RefEvent → Bool
  | RefEvent.releaseInline => true
  | RefEvent.releaseOnContext => true
  | _ => false

/-!
The spawn entry point for a non-void result type, `spawn_entry_point`
(lines 527-558).  The user function's behaviour is abstracted by its
observable outcome: it returns a value `t`, it throws before producing a
value, or an exception is thrown after `done = true` (i.e. during the moves
into / the making of the dispatch that follows the commit point).  The entry
point's own observable behaviour is the list of final-handler invocations it
dispatches — each tagged with the executor it was dispatched on and the two
handler arguments — plus the exception it lets propagate, if any.
-/

/-- Observable outcome of `std::invoke(f, args..., ctx)` awaited inside
`spawn_entry_point`, relative to the `done` flag. -/
inductive FnOutcome (T : Type)
  | returns (t : T)
  | raisesBefore (e : Exc)
  | raisesAfter (t : T) (e : Exc)
deriving DecidableEq, Repr

/-- The work guard captured by `spawn` (line 598, `make_work_guard`), which
pins the caller's originally requested executor.  The executor is a tag. -/
structure WorkGuard where
  executor : Nat
deriving DecidableEq, Repr

/-- Embeds `work_guard.get_executor()`. -/
def WorkGuard.get_executor (wg : WorkGuard) : Nat :=
  wg.executor

/-- Observable behaviour of one `spawn_entry_point` run: the final-handler
invocations dispatched (executor tag, exception argument, value argument)
and the exception left to propagate out of the coroutine body, if any. -/
structure SpawnOutcome (T : Type) where
  dispatched : List (Nat × Option Exc × T)
  propagated : Option Exc
deriving DecidableEq, Repr

/-- Embeds `spawn_entry_point(awaitable<T>*, ...)` (lines 527-558):
on a returned value the handler is dispatched on
`work_guard.get_executor()` with `(std::exception_ptr(), t)`; on an
exception thrown before `done = true` the handler is dispatched there with
`(e, T())` where `T()` is the default-constructed value; on an exception
thrown after `done = true` the `catch` block rethrows (`throw;`) instead of
dispatching. -/
def spawn_entry_point {T : Type} [Inhabited T] (wg : WorkGuard)
    (outcome : FnOutcome T) : SpawnOutcome T :=
  match outcome with
  | FnOutcome.returns t =>
      { dispatched := [(wg.get_executor, none, t)], propagated := none }
  | FnOutcome.raisesBefore e =>
      { dispatched := [(wg.get_executor, some e, default)], propagated := none }
  | FnOutcome.raisesAfter _ e =>
      { dispatched := [], propagated := some e }

/-- Projection helper: the awaitee coming out of `finish_invoke` is the one
passed in (the outcome was already written before the common tail runs). -/
theorem finish_invoke_awaitee {T : Type} (ae : Awaitee T) (aw : Awaiter)
    (r : Option Exc) : (finish_invoke ae aw r).awaitee = ae :=
  rfl

/-- Projection helper: `finish_invoke` resumes exactly the registered
caller, via `wake_caller`. -/
theorem finish_invoke_resumed {T : Type} (ae : Awaitee T) (aw : Awaiter)
    (r : Option Exc) : (finish_invoke ae aw r).resumed = ae.wake_caller :=
  rfl

/-- Projection helper: what `finish_invoke` rethrows is what
`awaiter::rethrow_exception` throws on the post-resumption awaiter state. -/
theorem finish_invoke_rethrown {T : Type} (ae : Awaitee T) (aw : Awaiter)
    (r : Option Exc) :
    (finish_invoke ae aw r).rethrown
      = ((resume_effect ae.wake_caller r aw).rethrow_exception).2 :=
  rfl

/-- Projection helper: the awaiter state after `finish_invoke` is the
post-resumption state after its rethrow and the trailing release. -/
theorem finish_invoke_task {T : Type} (ae : Awaitee T) (aw : Awaiter)
    (r : Option Exc) :
    (finish_invoke ae aw r).task
      = (((resume_effect ae.wake_caller r aw).rethrow_exception).1.release).1 :=
  rfl

/-- Projection helper: `release` only touches the reference count, never the
pending-exception slot. -/
theorem release_fst_pending (a : Awaiter) :
    ((a.release).1).pendingException = a.pendingException :=
  rfl

/-- C1: a spawned chain whose user function returns a value `v` with no
failure dispatches the final handler exactly once, with an empty failure
indicator and the value `v`, and that dispatch is made on the work guard's
(the caller's originally requested) executor; nothing propagates. -/
theorem spawn_returns_delivers_once {T : Type} [Inhabited T]
    (wg : WorkGuard) (v : T) :
    spawn_entry_point wg (FnOutcome.returns v) =
      { dispatched := [(wg.get_executor, none, v)], propagated := none } :=
  rfl

/-- C2: a spawned chain whose user function raises `e` before producing a
value dispatches the final handler exactly once, with the captured failure
and the default-constructed value of the declared result type, on the work
guard's executor. -/
theorem spawn_raise_before_delivers_failure {T : Type} [Inhabited T]
    (wg : WorkGuard) (e : Exc) :
    spawn_entry_point (T := T) wg (FnOutcome.raisesBefore e) =
      { dispatched := [(wg.get_executor, some e, default)], propagated := none } :=
  rfl

/-- C4: if the user function raises `e` after its value was committed (the
`done` flag was already set), no final-handler dispatch is made for the
failure — the `catch` block rethrows it to propagate instead. -/
theorem spawn_raise_after_propagates {T : Type} [Inhabited T]
    (wg : WorkGuard) (t : T) (e : Exc) :
    spawn_entry_point wg (FnOutcome.raisesAfter t e) =
      { dispatched := [], propagated := some e } :=
  rfl

/-- C3 counterexample: the claim that `release()` reaching a reference count
of zero never destroys the awaiter inline is false — on an awaiter whose
count is 1, `release` performs the `destroy()` call inline on the worker
that called it (impl/await.hpp lines 74-78). -/
theorem release_destroys_inline_counterexample :
    ((Awaiter.release { refCount := 1, pendingException := none }).2 = true) :=
  rfl

/-- C3 (amended): `release()` destroys the awaiter inline exactly when the
decremented reference count reaches zero (i.e. the count was 1); the
deferred, enqueued destruction path exists only for an `awaiter_task` that
is destroyed without having been invoked, whose destructor posts a
`destroy_awaiter` cleanup action onto the execution context, the release
then happening when that action runs there. -/
theorem release_inline_iff_last_ref (a : Awaiter) (h1 : 0 < a.refCount) :
    ((a.release).2 = true ↔ a.refCount = 1) ∧
    (a.release).1.refCount = a.refCount - 1 ∧
    adapter_lifecycle false =
      [RefEvent.acquire, RefEvent.enqueueCleanup, RefEvent.releaseOnContext] := by
  refine ⟨?_, rfl, rfl⟩
  simp only [Awaiter.release, beq_iff_eq]
  omega

/-- Witness for C3's amended theorem at the concrete awaiter with count 1. -/
theorem release_inline_iff_last_ref_witness :
    (((⟨1, none⟩ : Awaiter).release).2 = true ↔ (⟨1, none⟩ : Awaiter).refCount = 1) ∧
    ((⟨1, none⟩ : Awaiter).release).1.refCount = (⟨1, none⟩ : Awaiter).refCount - 1 ∧
    adapter_lifecycle false =
      [RefEvent.acquire, RefEvent.enqueueCleanup, RefEvent.releaseOnContext] :=
  release_inline_iff_last_ref ⟨1, none⟩ (by norm_num)

/-- C5: when the `(error_code, T)` adapter is invoked with a non-zero error
code on a computation whose value buffer is uninitialised, it records the
typed failure `system_error(ec)` on the computation, the value buffer stays
uninitialised, and consuming the result (`await_resume`) observes exactly
that failure. -/
theorem handler_failure_records_typed_exception {T : Type} (ec : Nat) (t : T)
    (ae : Awaitee T) (aw : Awaiter) (r : Option Exc)
    (hec : ec ≠ 0) (hempty : ae.stored = none) :
    (await_handler_ec_t_invoke ec t ae aw r).awaitee.pendingException
        = some (Exc.system_error ec) ∧
    (await_handler_ec_t_invoke ec t ae aw r).awaitee.stored = none ∧
    (awaitable_await_resume (await_handler_ec_t_invoke ec t ae aw r).awaitee).2
        = ValueResult.thrown (Exc.system_error ec) := by
  rcases ae with ⟨ac, ape, ard, ast⟩
  obtain rfl : ast = none := hempty
  simp only [await_handler_ec_t_invoke, if_pos hec, finish_invoke_awaitee]
  exact ⟨rfl, rfl, rfl⟩

/-- Witness for C5 at error code 7, value 3, a fresh awaitee and an awaiter
with one reference. -/
theorem handler_failure_records_typed_exception_witness :
    (await_handler_ec_t_invoke 7 3 ({} : Awaitee Nat) ⟨1, none⟩ none).awaitee.pendingException
        = some (Exc.system_error 7) ∧
    (await_handler_ec_t_invoke 7 3 ({} : Awaitee Nat) ⟨1, none⟩ none).awaitee.stored = none ∧
    (awaitable_await_resume
        (await_handler_ec_t_invoke 7 3 ({} : Awaitee Nat) ⟨1, none⟩ none).awaitee).2
      = ValueResult.thrown (Exc.system_error 7) :=
  handler_failure_records_typed_exception 7 3 {} ⟨1, none⟩ none (by decide) rfl

/-- C6: `await_resume` first clears the caller link, then rethrows the
recorded failure if one is present (also clearing the failure slot), and
otherwise moves the stored value out. -/
theorem await_resume_clears_then_rethrows_or_moves {T : Type} (s : Awaitee T) :
    (awaitable_await_resume s).1.caller = none ∧
    (∀ e, s.pendingException = some e →
      (awaitable_await_resume s).2 = ValueResult.thrown e ∧
      (awaitable_await_resume s).1.pendingException = none) ∧
    (∀ t, s.pendingException = none → s.stored = some t →
      (awaitable_await_resume s).2 = ValueResult.moved t) := by
  rcases s with ⟨c, pe, rd, st⟩
  refine ⟨?_, ?_, ?_⟩
  · cases pe <;> cases st <;>
      simp [awaitable_await_resume, Awaitee.set_caller, Awaitee.value,
        Awaitee.rethrow_exception]
  · rintro e rfl
    simp [awaitable_await_resume, Awaitee.set_caller, Awaitee.value,
      Awaitee.rethrow_exception]
  · rintro t rfl rfl
    simp [awaitable_await_resume, Awaitee.set_caller, Awaitee.value,
      Awaitee.rethrow_exception]

/-- Witness for C6 on a computation with a recorded failure and on one with
a stored value. -/
theorem await_resume_clears_then_rethrows_or_moves_witness :
    (awaitable_await_resume (⟨some 1, some (Exc.user 3), true, some 5⟩ : Awaitee Nat)).2
        = ValueResult.thrown (Exc.user 3) ∧
    (awaitable_await_resume (⟨some 1, none, false, some 5⟩ : Awaitee Nat)).2
        = ValueResult.moved 5 :=
  ⟨((await_resume_clears_then_rethrows_or_moves _).2.1 (Exc.user 3) rfl).1,
   (await_resume_clears_then_rethrows_or_moves _).2.2 5 rfl rfl⟩

/-- C7: writing a value with `return_value` does NOT make the computation
ready — `return_value` (lines 202-208) sets only `initialised_`, never
`ready_`, so `ready()` and `await_ready` still report `false` after a value
has been written, while recording a failure via `set_exception` does set
readiness.  This contradicts the claim that `ready()` is true exactly when
a value or a failure has been written, and breaks the claimed
resume-without-suspending fast path for already-completed-by-value
computations (their caller suspends with nobody left to wake it). -/
theorem return_value_leaves_ready_false :
    ((({} : Awaitee Nat).return_value 7).stored = some 7) ∧
    ((({} : Awaitee Nat).return_value 7).isReady = false) ∧
    (awaitable_await_ready (({} : Awaitee Nat).return_value 7) = false) ∧
    ((({} : Awaitee Nat).set_exception (Exc.user 1)).isReady = true) :=
  ⟨rfl, rfl, rfl, rfl⟩

/-- C8: each adapter instance acquires exactly one awaiter reference at
construction and causes exactly one release of it: an invoked adapter
releases inline during its single invocation (its destructor then finds the
pointer null and posts nothing), and an adapter destroyed without being
invoked posts the cleanup action, whose run on the context performs the one
release. -/
theorem adapter_releases_exactly_once :
    ((adapter_lifecycle true).filter RefEvent.isRelease).length = 1 ∧
    ((adapter_lifecycle false).filter RefEvent.isRelease).length = 1 ∧
    ((adapter_lifecycle true).filter (· == RefEvent.acquire)).length = 1 ∧
    ((adapter_lifecycle false).filter (· == RefEvent.acquire)).length = 1 ∧
    adapter_lifecycle true = [RefEvent.acquire, RefEvent.releaseInline] ∧
    adapter_lifecycle false =
      [RefEvent.acquire, RefEvent.enqueueCleanup, RefEvent.releaseOnContext] := by
  decide

/-- C9: an adapter invocation that resumes the registered caller, when the
resumed chain leaves a failure `e` on the top-level awaiter, rethrows `e`
out of the handler on the invoking worker (clearing the slot); when the
resumption leaves no failure, what is rethrown is exactly the awaiter's
previously pending failure, so no pending failure is silently dropped. -/
theorem handler_rethrows_pending_failure (ae : Awaitee Unit) (aw : Awaiter)
    (c : Nat) (e : Exc) (hc : ae.caller = some c) :
    (await_handler_void_invoke ae aw (some e)).resumed = some c ∧
    (await_handler_void_invoke ae aw (some e)).rethrown = some e ∧
    (await_handler_void_invoke ae aw (some e)).task.pendingException = none ∧
    (await_handler_void_invoke ae aw none).rethrown = aw.pendingException := by
  rcases ae with ⟨ac, ape, ard, ast⟩
  rcases aw with ⟨rc, pe⟩
  obtain rfl : ac = some c := hc
  exact ⟨rfl, rfl, rfl, by cases pe <;> rfl⟩

/-- Witness for C9 on a computation whose caller is handle 4 and an awaiter
holding two references with no prior pending failure. -/
theorem handler_rethrows_pending_failure_witness :
    (await_handler_void_invoke ⟨some 4, none, false, none⟩ ⟨2, none⟩
        (some (Exc.user 9))).resumed = some 4 ∧
    (await_handler_void_invoke ⟨some 4, none, false, none⟩ ⟨2, none⟩
        (some (Exc.user 9))).rethrown = some (Exc.user 9) ∧
    (await_handler_void_invoke ⟨some 4, none, false, none⟩ ⟨2, none⟩
        (some (Exc.user 9))).task.pendingException = none ∧
    (await_handler_void_invoke ⟨some 4, none, false, none⟩ ⟨2, none⟩
        none).rethrown = (⟨2, none⟩ : Awaiter).pendingException :=
  handler_rethrows_pending_failure ⟨some 4, none, false, none⟩ ⟨2, none⟩ 4
    (Exc.user 9) rfl

/-- C10: both `awaiter::rethrow_exception` and
`awaitee_base::rethrow_exception` exchange the pending-failure slot with
null before rethrowing: the call throws exactly the previously pending
failure, leaves the slot empty, and a second call on the resulting state
throws nothing and changes nothing. -/
theorem rethrow_at_most_once {T : Type} (aw : Awaiter) (s : Awaitee T) :
    (aw.rethrow_exception).2 = aw.pendingException ∧
    (aw.rethrow_exception).1.pendingException = none ∧
    (aw.rethrow_exception).1.rethrow_exception = ((aw.rethrow_exception).1, none) ∧
    (s.rethrow_exception).2 = s.pendingException ∧
    (s.rethrow_exception).1.pendingException = none ∧
    (s.rethrow_exception).1.rethrow_exception = ((s.rethrow_exception).1, none) := by
  rcases aw with ⟨rc, pe⟩
  rcases s with ⟨c, spe, rd, st⟩
  cases pe <;> cases spe <;>
    simp [Awaiter.rethrow_exception, Awaitee.rethrow_exception]

end AsioAwait
